import Mathlib

/-!
Shallow embedding of the PS/2 touchpad bridge (ps2.cpp, synaptics.cpp, hid.h).

Conventions used throughout:
* Arduino `LOW` is `0`, `HIGH` is `1`; sampled bits are `Nat` values in {0, 1}.
* `uint8_t` values are `Nat` with explicit `% 256` / masking where the C code
  relies on the 8-bit width.
* Side effects are made explicit: `Serial.println` diagnostics and the
  `byte_received_` callback become elements of an event list; the GPIO traffic
  of `ps2_command` becomes a list of write/read events.
-/

/-- One observable event of the receive / synchronous-read paths of ps2.cpp:
a logged diagnostic line, or an invocation of the registered
`byte_received_` callback with the assembled byte. -/
inductive RxEv : Type
  | logStart : RxEv
  | logParity : RxEv
  | logStop : RxEv
  | callback (b : Nat) : RxEv
deriving DecidableEq, Repr

/-- The interrupt-driven receive frame state of ps2.cpp: the volatile globals
`receive_index`, `receive_buffer` and `parity`. -/
structure RecvState : Type where
  receive_index : Nat
  receive_buffer : Nat
  parity : Nat
deriving DecidableEq, Repr

/-- The idle receive state: all three volatile globals are zero. -/
def RecvState.idle : RecvState := ⟨0, 0, 0⟩

/-- Embedding of `bit_received()` (ps2.cpp lines 84-120).  `clock` is the
re-sampled clock level, `bit` the sampled data line.  Returns the updated
frame state and the emitted events.  Mirrors the source exactly: a non-low
clock is spurious and ignored; index 0 checks the start bit (logs on error
but still advances); indices 1-8 accumulate the payload LSB-first and fold
the bit into the running parity; index 9 folds in the parity bit and logs
when the cumulative parity is not 1; index 10 checks the stop bit (log
only), invokes the callback with `receive_buffer`, resets all three globals
to zero and returns without the final increment. -/
def bit_received (s : RecvState) (clock bit : Nat) : RecvState × List RxEv :=
  if clock ≠ 0 then
    (s, [])
  else if s.receive_index = 0 then
    (⟨s.receive_index + 1, s.receive_buffer, s.parity⟩,
      if bit ≠ 0 then [RxEv.logStart] else [])
  else if 1 ≤ s.receive_index ∧ s.receive_index ≤ 8 then
    (⟨s.receive_index + 1,
      s.receive_buffer ||| (bit <<< (s.receive_index - 1)),
      s.parity ^^^ bit⟩, [])
  else if s.receive_index = 9 then
    (⟨s.receive_index + 1, s.receive_buffer, s.parity ^^^ bit⟩,
      if s.parity ^^^ bit ≠ 1 then [RxEv.logParity] else [])
  else if s.receive_index = 10 then
    (⟨0, 0, 0⟩,
      (if bit ≠ 1 then [RxEv.logStop] else []) ++ [RxEv.callback s.receive_buffer])
  else
    (⟨s.receive_index + 1, s.receive_buffer, s.parity⟩, [])

/-- Run the receive state machine over a list of clock-edge events, each a
pair (sampled clock level, sampled data bit), threading the state and
concatenating the emitted events in order. -/
def run_receiver (s : RecvState) : List (Nat × Nat) → RecvState × List RxEv
  | [] => (s, [])
  | e :: es =>
    let (s1, evs1) := bit_received s e.1 e.2
    let (s2, evs2) := run_receiver s1 es
    (s2, evs1 ++ evs2)

/-- Bit `i` of byte `b` (LSB-first payload order of the PS/2 frame). -/
def dataBit (b i : Nat) : Nat := (b >>> i) &&& 1

/-- XOR of the 8 payload bits of byte `b`. -/
def byteParity (b : Nat) : Nat :=
  (List.range 8).foldl (fun acc i => acc ^^^ dataBit b i) 0

/-- The transmitted odd-parity bit for byte `b`: chosen so that the XOR of
the 8 data bits and the parity bit equals 1. -/
def oddParityBit (b : Nat) : Nat := 1 ^^^ byteParity b

/-- A well-formed 11-edge PS/2 frame carrying byte `b`: start bit 0, the 8
data bits of `b` LSB-first, the correct odd-parity bit, stop bit 1; every
edge arrives with the clock sampled low. -/
def ps2_frame (b : Nat) : List (Nat × Nat) :=
  (0, 0) :: ((List.range 8).map fun i => (0, dataBit b i))
    ++ [(0, oddParityBit b), (0, 1)]

/-- The frame for byte `b` with data bit `i` flipped on the wire while the
transmitted parity bit is still the one computed for the original `b`. -/
def ps2_flip_frame (b i : Nat) : List (Nat × Nat) :=
  (0, 0) :: ((List.range 8).map fun j => (0, dataBit (b ^^^ (1 <<< i)) j))
    ++ [(0, oddParityBit b), (0, 1)]

set_option maxRecDepth 4000 in
/-- C3: for every byte b, feeding the 11 clock-edge events of a well-formed
frame for b (start 0, 8 data bits LSB-first, correct odd parity, stop 1)
into the receive state machine from the idle state invokes the callback
exactly once, with the byte assembled LSB-first equal to b, and leaves the
state (bit index, accumulated byte, running parity) back at the idle zero
values. -/
theorem receiver_wellformed_frame (b : Nat) (hb : b < 256) :
    run_receiver RecvState.idle (ps2_frame b) = (RecvState.idle, [RxEv.callback b]) := by
  revert b
  decide

theorem receiver_wellformed_frame_witness :
    (0x5A : Nat) < 256 ∧
      run_receiver RecvState.idle (ps2_frame 0x5A) = (RecvState.idle, [RxEv.callback 0x5A]) :=
  ⟨by decide, receiver_wellformed_frame 0x5A (by decide)⟩

set_option maxRecDepth 8000 in
set_option maxHeartbeats 4000000 in
/-- C4: for every byte b and data-bit position i, feeding the 11-edge frame
in which data bit i was flipped on the wire while the transmitted parity
bit still matches the original byte, the receive state machine logs the
parity mismatch as a diagnostic only, still delivers exactly one byte (the
flipped byte) to the callback, and returns to the idle state. -/
theorem receiver_parity_fault_frame (b : Nat) (hb : b < 256) (i : Nat) (hi : i < 8) :
    run_receiver RecvState.idle (ps2_flip_frame b i) =
      (RecvState.idle, [RxEv.logParity, RxEv.callback (b ^^^ (1 <<< i))]) := by
  revert i
  revert b
  decide

theorem receiver_parity_fault_frame_witness :
    (0x5A : Nat) < 256 ∧ (3 : Nat) < 8 ∧
      run_receiver RecvState.idle (ps2_flip_frame 0x5A 3) =
        (RecvState.idle, [RxEv.logParity, RxEv.callback (0x5A ^^^ (1 <<< 3))]) :=
  ⟨by decide, by decide, receiver_parity_fault_frame 0x5A (by decide) 3 (by decide)⟩

/-- The 8-iteration loop of `read_byte()` (ps2.cpp lines 135-142): `i` is
the loop counter, `data` and `parity` the accumulators, and the final
argument the number of remaining iterations.  Sample `i+1` of the bit
stream is the data bit of iteration `i` (sample 0 was the start bit). -/
def read_byte_loop (bits : Nat → Nat) (i data parity : Nat) : Nat → Nat × Nat
  | 0 => (data, parity)
  | r + 1 =>
    read_byte_loop bits (i + 1) (data ||| (bits (i + 1) <<< i)) (parity ^^^ bits (i + 1)) r

/-- Embedding of the synchronous `read_byte()` (ps2.cpp lines 124-161) over
the stream of successively sampled data-line bits: sample 0 is the start
bit, samples 1-8 the payload LSB-first, sample 9 the parity bit, sample 10
the stop bit.  Returns the assembled byte and the emitted diagnostic
events; framing violations are logged, never escalated. -/
def read_byte (bits : Nat → Nat) : Nat × List RxEv :=
  let start_bit := bits 0
  let evs0 := if start_bit ≠ 0 then [RxEv.logStart] else []
  let (data, parity) := read_byte_loop bits 0 0 0 8
  let parity2 := parity ^^^ bits 9
  let evs1 := if parity2 ≠ 1 then [RxEv.logParity] else []
  let stop := bits 10
  let evs2 := if stop ≠ 1 then [RxEv.logStop] else []
  (data, evs0 ++ evs1 ++ evs2)

/-- Helper: a single synchronous read emits only log diagnostics, never a
callback invocation, whatever the sampled bit stream. -/
theorem read_byte_events_no_callback (bits : Nat → Nat) (b : Nat) :
    RxEv.callback b ∉ (read_byte bits).2 := by
  unfold read_byte
  rcases read_byte_loop bits 0 0 0 8 with ⟨data, parity⟩
  simp only [List.mem_append]
  rintro (⟨h | h⟩ | h) <;> revert h <;> split <;> simp

/-- C8: the registered byte-received callback is invoked only by the
asynchronous interrupt path `bit_received`, and there only when a frame
completes (bit index 10, clock sampled low, with the accumulated byte);
the synchronous read path never emits a callback event for any sequence
of synchronous reads. -/
theorem callback_only_from_async_path (streams : List (Nat → Nat)) (b : Nat) :
    RxEv.callback b ∉ (streams.map fun bits => (read_byte bits).2).flatten ∧
    ∀ (s : RecvState) (clock bit c : Nat),
      RxEv.callback c ∈ (bit_received s clock bit).2 →
        clock = 0 ∧ s.receive_index = 10 ∧ c = s.receive_buffer := by
  constructor
  · induction streams with
    | nil => simp
    | cons bits rest ih =>
      simp only [List.map_cons, List.flatten, List.mem_append]
      rintro (h | h)
      · exact read_byte_events_no_callback bits b h
      · exact ih h
  · intro s clock bit c h
    unfold bit_received at h
    split at h
    · simp at h
    · refine ⟨by omega, ?_⟩
      split at h
      · revert h; split <;> simp
      · split at h
        · simp at h
        · split at h
          · revert h; split <;> simp
          · split at h
            · simp only [List.mem_append] at h
              rcases h with h | h
              · revert h; split <;> simp
              · simp at h
                omega
            · simp at h

theorem callback_only_from_async_path_witness :
    (0 : Nat) = 0 ∧ (10 : Nat) = 10 ∧ (0x42 : Nat) = 0x42 :=
  (callback_only_from_async_path [] 0).2 ⟨10, 0x42, 1⟩ 0 1 0x42 (by decide)

/-- Embedding of the tail of `write_byte()` (ps2.cpp lines 210-215) as a
function of the ACK byte returned by the inline synchronous read: when the
ACK differs from 0xFA the source logs the error and returns `false`; when
the ACK equals 0xFA control reaches the closing brace of the `bool`
function without any `return` statement, so no return value is defined —
modelled as `none`. -/
def write_byte_result (ack : Nat) : Option Bool :=
  if ack ≠ 0xFA then some false else none

/-- C1: the claim says write_byte reports success exactly when the ACK byte
is 0xFA; on the code, any ACK other than 0xFA does return failure, but on
ACK = 0xFA control falls off the end of the bool function — no success
value is ever returned (the missing `return true` is a defect in
ps2.cpp line 215). -/
theorem write_byte_missing_success_return :
    write_byte_result 0xFA = none ∧
      write_byte_result 0x00 = some false ∧
      ∀ ack : Nat, ack ≠ 0xFA → write_byte_result ack = some false := by
  refine ⟨by decide, by decide, ?_⟩
  intro ack h
  simp [write_byte_result, h]

theorem write_byte_missing_success_return_witness :
    write_byte_result 0xFE = some false :=
  write_byte_missing_success_return.2.2 0xFE (by decide)

/-- One unit of observable GPIO traffic of a command transaction: a
host-to-device byte written via the write-byte protocol, or one
synchronous response-byte read. -/
inductive PS2Ev : Type
  | writeB (b : Nat) : PS2Ev
  | readB : PS2Ev
deriving DecidableEq, Repr

/-- Protocol-engine state visible to a command transaction: the receive
frame state of the interrupt path plus whether the receive interrupt is
enabled. -/
structure PS2State : Type where
  recv : RecvState
  interrupts_on : Bool
deriving DecidableEq, Repr

/-- Embedding of `disable_interrupt()` (ps2.cpp lines 73-80): `cli()` turns
the receive interrupt off, then the three volatile receive globals are
force-reset to zero, abandoning any partially received frame. -/
def disable_interrupt (_s : PS2State) : PS2State :=
  ⟨⟨0, 0, 0⟩, false⟩

/-- Embedding of `enable_interrupt()` (ps2.cpp line 82): `sei()` turns the
receive interrupt back on; the receive frame state is untouched. -/
def enable_interrupt (s : PS2State) : PS2State :=
  ⟨s.recv, true⟩

/-- The argument-send loop of `ps2_command()` (ps2.cpp lines 236-238):
`args i` is `args[i]`, `acks (i+1)` the ACK byte the device answers to the
(i+1)-th write of the transaction (write 0 was the opcode).  Each
iteration calls write_byte — whose result is discarded by the source —
and the final argument counts the remaining iterations. -/
def ps2_send_loop (args acks : Nat → Nat) (i : Nat) : Nat → List PS2Ev
  | 0 => []
  | r + 1 =>
    let _ := write_byte_result (acks (i + 1))
    PS2Ev.writeB (args i) :: ps2_send_loop args acks (i + 1) r

/-- The response-read loop of `ps2_command()` (ps2.cpp lines 240-245):
`device i` is the i-th response byte delivered by the device; each
iteration reads one byte synchronously and stores it into `result[i]`
when the result pointer is non-null.  Returns the read events and the
list of stored bytes. -/
def ps2_recv_loop (device : Nat → Nat) (result_nonnull : Bool) (i : Nat) :
    Nat → List PS2Ev × List Nat
  | 0 => ([], [])
  | r + 1 =>
    let response := device i
    let (t, stored) := ps2_recv_loop device result_nonnull (i + 1) r
    (PS2Ev.readB :: t, if result_nonnull then response :: stored else stored)

/-- Everything a `ps2_command()` call produces: the protocol-engine state
on return, the C `bool` return value, the GPIO traffic in order, and the
bytes stored through the result pointer. -/
structure PS2Outcome : Type where
  state : PS2State
  retval : Bool
  trace : List PS2Ev
  stored : List Nat
deriving DecidableEq, Repr

/-- Embedding of `ps2_command()` (ps2.cpp lines 229-249).  `command` is the
16-bit descriptor; `args i` models `args[i]`; `device i` the i-th response
byte; `acks k` the ACK byte answering the k-th write of the transaction;
`result_nonnull` models `result != nullptr`.  The source disables the
receive interrupt (force-resetting the receive frame state), writes the
opcode `command & 0xFF`, writes the `(command >> 12) & 0x0F` argument
bytes in order, reads the `(command >> 8) & 0x0F` response bytes, enables
the interrupt again and returns `true` unconditionally; every
write_byte result is discarded. -/
def ps2_command (command : Nat) (args device acks : Nat → Nat)
    (result_nonnull : Bool) (s : PS2State) : PS2Outcome :=
  let s1 := disable_interrupt s
  let send := (command >>> 12) &&& 0x0F
  let receive := (command >>> 8) &&& 0x0F
  let _ := write_byte_result (acks 0)
  let sendTrace := ps2_send_loop args acks 0 send
  let (recvTrace, stored) := ps2_recv_loop device result_nonnull 0 receive
  let s2 := enable_interrupt s1
  ⟨s2, true, PS2Ev.writeB (command &&& 0xFF) :: sendTrace ++ recvTrace, stored⟩

/-- Helper: the send loop emits exactly one write event per argument, in
array order. -/
theorem ps2_send_loop_eq (args acks : Nat → Nat) :
    ∀ (n i : Nat), ps2_send_loop args acks i n =
      (List.range n).map fun j => PS2Ev.writeB (args (i + j)) := by
  intro n
  induction n with
  | zero => intro i; rfl
  | succ m ih =>
    intro i
    show PS2Ev.writeB (args i) :: ps2_send_loop args acks (i + 1) m = _
    rw [ih (i + 1), List.range_succ_eq_map, List.map_cons, List.map_map]
    simp [Function.comp, Nat.add_comm, Nat.add_assoc, Nat.add_left_comm]

/-- Helper: the receive loop emits exactly one read event per expected
response byte, and stores the device's bytes in order when the result
pointer is non-null. -/
theorem ps2_recv_loop_eq (device : Nat → Nat) (rn : Bool) :
    ∀ (n i : Nat), ps2_recv_loop device rn i n =
      (List.replicate n PS2Ev.readB,
        if rn then (List.range n).map (fun j => device (i + j)) else []) := by
  intro n
  induction n with
  | zero => intro i; simp [ps2_recv_loop]
  | succ m ih =>
    intro i
    show (PS2Ev.readB :: (ps2_recv_loop device rn (i + 1) m).1,
        if rn then device i :: (ps2_recv_loop device rn (i + 1) m).2
        else (ps2_recv_loop device rn (i + 1) m).2) = _
    rw [ih (i + 1)]
    rcases rn with _ | _
    · simp [List.replicate_succ]
    · simp [List.replicate_succ, List.range_succ_eq_map, List.map_map,
        Function.comp, Nat.add_comm, Nat.add_assoc, Nat.add_left_comm]

/-- C5: a command transaction first writes the low byte of the descriptor
(the opcode), then writes exactly `(command >> 12) & 0x0F` argument bytes
in array order, then performs exactly `(command >> 8) & 0x0F` synchronous
reads, in that order; in particular any descriptor with send nibble 1 and
receive nibble 2 yields exactly one argument write followed by exactly two
reads, regardless of byte values. -/
theorem ps2_command_trace_shape (command : Nat) (args device acks : Nat → Nat)
    (rn : Bool) (s : PS2State) :
    (ps2_command command args device acks rn s).trace =
      PS2Ev.writeB (command &&& 0xFF)
        :: ((List.range ((command >>> 12) &&& 0x0F)).map fun i => PS2Ev.writeB (args i))
        ++ List.replicate ((command >>> 8) &&& 0x0F) PS2Ev.readB ∧
    ((command >>> 12) &&& 0x0F = 1 → (command >>> 8) &&& 0x0F = 2 →
      (ps2_command command args device acks rn s).trace =
        [PS2Ev.writeB (command &&& 0xFF), PS2Ev.writeB (args 0),
          PS2Ev.readB, PS2Ev.readB]) := by
  have htrace : (ps2_command command args device acks rn s).trace =
      PS2Ev.writeB (command &&& 0xFF)
        :: ((List.range ((command >>> 12) &&& 0x0F)).map fun i => PS2Ev.writeB (args i))
        ++ List.replicate ((command >>> 8) &&& 0x0F) PS2Ev.readB := by
    show PS2Ev.writeB (command &&& 0xFF)
        :: ps2_send_loop args acks 0 ((command >>> 12) &&& 0x0F)
        ++ (ps2_recv_loop device rn 0 ((command >>> 8) &&& 0x0F)).1 = _
    rw [ps2_send_loop_eq, ps2_recv_loop_eq]
    simp
  refine ⟨htrace, fun h1 h2 => ?_⟩
  rw [htrace, h1, h2]
  rfl

theorem ps2_command_trace_shape_witness :
    (0x12AB >>> 12) &&& 0x0F = 1 ∧ (0x12AB >>> 8) &&& 0x0F = 2 ∧
      (ps2_command 0x12AB (fun _ => 7) (fun _ => 0) (fun _ => 0xFA) false
          ⟨RecvState.idle, true⟩).trace =
        [PS2Ev.writeB 0xAB, PS2Ev.writeB 7, PS2Ev.readB, PS2Ev.readB] :=
  ⟨by decide, by decide,
    (ps2_command_trace_shape 0x12AB (fun _ => 7) (fun _ => 0) (fun _ => 0xFA) false
      ⟨RecvState.idle, true⟩).2 (by decide) (by decide)⟩

/-- C6: whenever a command transaction begins while an asynchronous frame
is partially received (receive index > 0), the transaction's
disable-interrupt step immediately resets the receive frame state to all
zeros, and the transaction as a whole hands the protocol engine back with
the receive frame state idle and the interrupt re-enabled, so resumed
reception starts cleanly from the idle state. -/
theorem ps2_command_resets_partial_frame (s : PS2State)
    (h : 0 < s.recv.receive_index) (command : Nat) (args device acks : Nat → Nat)
    (rn : Bool) :
    disable_interrupt s = ⟨RecvState.idle, false⟩ ∧
      (ps2_command command args device acks rn s).state = ⟨RecvState.idle, true⟩ :=
  ⟨rfl, rfl⟩

theorem ps2_command_resets_partial_frame_witness :
    0 < (PS2State.mk ⟨7, 0x2C, 1⟩ true).recv.receive_index ∧
      (disable_interrupt ⟨⟨7, 0x2C, 1⟩, true⟩ = ⟨RecvState.idle, false⟩ ∧
        (ps2_command 0x00E6 (fun _ => 0) (fun _ => 0) (fun _ => 0xFA) false
            ⟨⟨7, 0x2C, 1⟩, true⟩).state = ⟨RecvState.idle, true⟩) :=
  ⟨by decide,
    ps2_command_resets_partial_frame ⟨⟨7, 0x2C, 1⟩, true⟩ (by decide) 0x00E6
      (fun _ => 0) (fun _ => 0) (fun _ => 0xFA) false⟩

/-- C10: a command transaction always returns `true`, and its entire
outcome — return value, GPIO traffic, stored bytes and final state — is
independent of the ACK bytes the device answers to the writes: a NACKed
write_byte (whose `false` result the source discards) never changes the
boolean result and never stops the remaining argument writes or response
reads. -/
theorem ps2_command_ignores_write_failures (command : Nat)
    (args device acks acks' : Nat → Nat) (rn : Bool) (s : PS2State) :
    (ps2_command command args device acks rn s).retval = true ∧
      ps2_command command args device acks rn s =
        ps2_command command args device acks' rn s := by
  refine ⟨rfl, ?_⟩
  simp [ps2_command, ps2_send_loop_eq, ps2_recv_loop_eq]

/-- Command descriptor `PSMOUSE_CMD_SETSCALE11` (ps2.h line 30). -/
def PSMOUSE_CMD_SETSCALE11 : Nat := 0x00e6

/-- Command descriptor `PSMOUSE_CMD_SETRATE` (ps2.h line 31). -/
def PSMOUSE_CMD_SETRATE : Nat := 0x10f3

/-- Command descriptor `PSMOUSE_CMD_ENABLE` (ps2.h line 32). -/
def PSMOUSE_CMD_ENABLE : Nat := 0x00f4

/-- Command descriptor `PSMOUSE_CMD_DISABLE` (ps2.h line 33). -/
def PSMOUSE_CMD_DISABLE : Nat := 0x00f5

/-- Command descriptor `PSMOUSE_CMD_SETRES` (ps2.h line 35). -/
def PSMOUSE_CMD_SETRES : Nat := 0x10e8

/-- Command descriptor `PSMOUSE_CMD_GETINFO` (ps2.h line 36). -/
def PSMOUSE_CMD_GETINFO : Nat := 0x03e9

/-- One `ps2::ps2_command` invocation as issued by the Synaptics layer: the
16-bit command descriptor and the argument bytes passed with it. -/
structure CmdCall : Type where
  cmd : Nat
  args : List Nat
deriving DecidableEq, Repr

/-- Embedding of `special_command()` (synaptics.cpp lines 10-17): the loop
`for (int i = 6; i >= 0; i -= 2)` issues one SETRES command per iteration
whose single argument is `(command >> i) & 0x03`, i.e. the four 2-bit
pairs of the byte from most-significant pair to least-significant pair. -/
def special_command (command : Nat) : List CmdCall :=
  [6, 4, 2, 0].map fun i => ⟨PSMOUSE_CMD_SETRES, [(command >>> i) &&& 0x03]⟩

/-- Modelled from the spec: the device decodes an encoded-byte transfer by
concatenating the four 2-bit SETRES arguments in issue order
(most-significant pair first). -/
def concat_special_args (calls : List CmdCall) : Nat :=
  calls.foldl (fun acc c => acc * 4 + c.args.headD 0) 0

set_option maxRecDepth 4000 in
/-- C2: for every byte b, the encoded special-command transfer issues
exactly four SETRES commands whose single arguments are, in issue order,
the four 2-bit pairs of b from most-significant to least-significant
pair, and concatenating those four 2-bit arguments in issue order
reconstructs exactly b. -/
theorem special_command_round_trip (b : Nat) (hb : b < 256) :
    special_command b =
      [⟨PSMOUSE_CMD_SETRES, [(b >>> 6) &&& 0x03]⟩,
        ⟨PSMOUSE_CMD_SETRES, [(b >>> 4) &&& 0x03]⟩,
        ⟨PSMOUSE_CMD_SETRES, [(b >>> 2) &&& 0x03]⟩,
        ⟨PSMOUSE_CMD_SETRES, [b &&& 0x03]⟩] ∧
      (special_command b).length = 4 ∧
      concat_special_args (special_command b) = b := by
  revert b
  decide

theorem special_command_round_trip_witness :
    (0xA7 : Nat) < 256 ∧
      concat_special_args (special_command 0xA7) = 0xA7 :=
  ⟨by decide, (special_command_round_trip 0xA7 (by decide)).2.2⟩

/-- Embedding of `status_request()` (synaptics.cpp lines 19-23) at the
command-trace level: the encoded special command for `arg`, then one
GETINFO command (whose 3-byte response lands in `result`). -/
def status_request (arg : Nat) : List CmdCall :=
  special_command arg ++ [⟨PSMOUSE_CMD_GETINFO, []⟩]

/-- The query phase of `init()` (synaptics.cpp lines 31-74): four status
requests, for codes 0x00, 0x02, 0x08 and 0x0C. -/
def synaptics_init_queries : List CmdCall :=
  status_request 0x00 ++ status_request 0x02 ++ status_request 0x08
    ++ status_request 0x0C

/-- The mode-programming phase of `init()` (synaptics.cpp lines 87-103):
disable streaming; SETSCALE11 twice; the encoded special command for
0xC5; SETRATE with the current `sample_rate` (0x14); SETSCALE11 twice;
the encoded special command for 0x03; SETRATE with `sample_rate` now
0xC8; enable streaming. -/
def synaptics_init_mode_programming : List CmdCall :=
  [⟨PSMOUSE_CMD_DISABLE, []⟩]
    ++ [⟨PSMOUSE_CMD_SETSCALE11, []⟩]
    ++ [⟨PSMOUSE_CMD_SETSCALE11, []⟩]
    ++ special_command 0xC5
    ++ [⟨PSMOUSE_CMD_SETRATE, [0x14]⟩]
    ++ [⟨PSMOUSE_CMD_SETSCALE11, []⟩]
    ++ [⟨PSMOUSE_CMD_SETSCALE11, []⟩]
    ++ special_command 0x03
    ++ [⟨PSMOUSE_CMD_SETRATE, [0xC8]⟩]
    ++ [⟨PSMOUSE_CMD_ENABLE, []⟩]

/-- The full command trace of `init()`: the query phase followed by the
mode-programming phase. -/
def synaptics_init_trace : List CmdCall :=
  synaptics_init_queries ++ synaptics_init_mode_programming

/-- C7: the mode-programming phase of initialization issues, in exactly
this order and with nothing interleaved: disable streaming, SETSCALE11
twice, the four SETRES calls encoding 0xC5 (arguments 3,0,1,1), SETRATE
with argument 0x14, SETSCALE11 twice, the four SETRES calls encoding
0x03 (arguments 0,0,0,3), SETRATE with argument 0xC8, enable streaming;
and within `init()` this phase is the contiguous tail after the query
phase. -/
theorem init_mode_programming_script :
    synaptics_init_mode_programming =
      [⟨PSMOUSE_CMD_DISABLE, []⟩,
        ⟨PSMOUSE_CMD_SETSCALE11, []⟩, ⟨PSMOUSE_CMD_SETSCALE11, []⟩,
        ⟨PSMOUSE_CMD_SETRES, [3]⟩, ⟨PSMOUSE_CMD_SETRES, [0]⟩,
        ⟨PSMOUSE_CMD_SETRES, [1]⟩, ⟨PSMOUSE_CMD_SETRES, [1]⟩,
        ⟨PSMOUSE_CMD_SETRATE, [0x14]⟩,
        ⟨PSMOUSE_CMD_SETSCALE11, []⟩, ⟨PSMOUSE_CMD_SETSCALE11, []⟩,
        ⟨PSMOUSE_CMD_SETRES, [0]⟩, ⟨PSMOUSE_CMD_SETRES, [0]⟩,
        ⟨PSMOUSE_CMD_SETRES, [0]⟩, ⟨PSMOUSE_CMD_SETRES, [3]⟩,
        ⟨PSMOUSE_CMD_SETRATE, [0xC8]⟩,
        ⟨PSMOUSE_CMD_ENABLE, []⟩] ∧
      synaptics_init_trace =
        synaptics_init_queries ++ synaptics_init_mode_programming := by
  exact ⟨by decide, rfl⟩

/-- Conversion of a C `int8_t` value to the `uint8_t` slot it is stored
into (two's-complement reduction modulo 256). -/
def int8_to_uint8 (v : Int) : Nat := (v % 256).toNat

/-- The declared size of the report buffer `uint8_t m[4]` (hid.h line 51). -/
def hid_buffer_size : Nat := 4

/-- The five indexed stores of `report()` (hid.h lines 52-56), in program
order: `m[0] = buttons; m[1] = x; m[2] = y; m[3] = vscroll; m[4] =
hscroll`, each value reduced to the `uint8_t` cell it is written to. -/
def hid_report_writes (buttons : Nat) (x y vscroll hscroll : Int) : List (Nat × Nat) :=
  [(0, buttons % 256), (1, int8_to_uint8 x), (2, int8_to_uint8 y),
    (3, int8_to_uint8 vscroll), (4, int8_to_uint8 hscroll)]

/-- The 4-byte buffer handed to `HID().SendReport(1, m, sizeof(m))`
(hid.h line 57): the declared 4-cell array after the five stores; a store
whose index falls outside the array does not land in any of the 4 cells
that are sent (it clobbers adjacent memory instead). -/
def hid_report_sent (buttons : Nat) (x y vscroll hscroll : Int) : List Nat :=
  (hid_report_writes buttons x y vscroll hscroll).foldl
    (fun buf w => buf.set w.1 w.2) (List.replicate hid_buffer_size 0)

/-- C9: every call of the HID report function sends exactly 4 bytes —
buttons, x delta, y delta, vertical wheel delta — the horizontal-pan
argument is not packed into any of those 4 bytes, and the store of the
horizontal-pan value uses index 4, one element past the last valid index
of the declared 4-byte array. -/
theorem hid_report_shape (buttons : Nat) (x y vscroll hscroll : Int) :
    hid_report_sent buttons x y vscroll hscroll =
      [buttons % 256, int8_to_uint8 x, int8_to_uint8 y, int8_to_uint8 vscroll] ∧
    (hid_report_sent buttons x y vscroll hscroll).length = 4 ∧
    (hid_report_writes buttons x y vscroll hscroll).getLast? =
      some (4, int8_to_uint8 hscroll) ∧
    (hid_report_writes buttons x y vscroll hscroll).map Prod.fst = [0, 1, 2, 3, 4] ∧
    hid_buffer_size = 4 := by
  refine ⟨rfl, rfl, rfl, rfl, rfl⟩
